import Mathlib

/- Shallow embedding of the postgres-user-manager reconciliation core:
   the database Manager (CreateUser, DropUser, CreateGroup, privilege and
   membership operations, catalog reads, SyncConfiguration), the identifier
   safety helpers, and the environment-variable connection assembly.
   Database effects are modelled by an abstract driver over a state type:
   reads and mutating statements are recorded as events, mirroring the Go
   code's calls to QueryRow/Query/Exec on the sql.DB handle. -/

namespace PUM

/-- Mirrors structs.UserConfig (internal/structs). -/
structure UserConfig where
  Username : String
  Password : String
  Groups : List String
  Privileges : List String
  Databases : List String
  Enabled : Bool
  Description : String
  AuthMethod : String
  IAMRole : String
  CanLogin : Bool
  ConnectionLimit : Int
  deriving Repr, DecidableEq

/-- Mirrors structs.GroupConfig (internal/structs). -/
structure GroupConfig where
  Name : String
  Privileges : List String
  Databases : List String
  Description : String
  Inherit : Bool
  deriving Repr, DecidableEq

/-- Mirrors structs.Config (internal/structs). -/
structure Config where
  Users : List UserConfig
  Groups : List GroupConfig
  deriving Repr, DecidableEq

/-- Character-level model of strings.ReplaceAll for a one-character
pattern replaced by two copies of itself: every occurrence of c is
doubled, other characters are kept. -/
def doubleAll (c : Char) : List Char → List Char
  | [] => []
  | x :: xs => if x = c then c :: c :: doubleAll c xs else x :: doubleAll c xs

/-- quoteIdentifier from internal/database: wraps the name in double quotes,
doubling any embedded double-quote character. -/
def quoteIdentifier (name : String) : String :=
  "\"" ++ String.mk (doubleAll '\"' name.data) ++ "\""

/-- escapeString from internal/database: doubles embedded single quotes. -/
def escapeString (s : String) : String :=
  String.mk (doubleAll '\'' s.data)

/-- buildCreateUserQuery from internal/database: CREATE USER with the quoted
username, an optional password clause (skipped for the iam auth method and
for an empty password), a LOGIN or NOLOGIN clause, and a connection-limit
clause when ConnectionLimit is nonzero. -/
def buildCreateUserQuery (user : UserConfig) : String :=
  let q1 := "CREATE USER " ++ quoteIdentifier user.Username
  let q2 :=
    if user.AuthMethod = "iam" then q1
    else if user.Password ≠ "" then
      q1 ++ " WITH PASSWORD '" ++ escapeString user.Password ++ "'"
    else q1
  let q3 := if user.CanLogin then q2 ++ " LOGIN" else q2 ++ " NOLOGIN"
  if user.ConnectionLimit ≠ 0 then
    if user.ConnectionLimit = -1 then q3 ++ " CONNECTION LIMIT -1"
    else q3 ++ " CONNECTION LIMIT " ++ toString user.ConnectionLimit
  else q3

/-- Password clause of the CREATE USER statement as the specification words
it: none for iam, none for an empty password, otherwise the password run
through the escape helper inside single quotes. -/
def specPasswordClause (user : UserConfig) : String :=
  if user.AuthMethod = "iam" then ""
  else if user.Password ≠ "" then " WITH PASSWORD '" ++ escapeString user.Password ++ "'"
  else ""

/-- Login clause as the specification words it. -/
def specLoginClause (user : UserConfig) : String :=
  if user.CanLogin then " LOGIN" else " NOLOGIN"

/-- Connection-limit clause as the specification words it: absent exactly
when the limit is zero, the literal -1 for unlimited, the integer otherwise. -/
def specConnLimitClause (user : UserConfig) : String :=
  if user.ConnectionLimit = 0 then ""
  else if user.ConnectionLimit = -1 then " CONNECTION LIMIT -1"
  else " CONNECTION LIMIT " ++ toString user.ConnectionLimit

/-- The CREATE USER statement as the specification describes it: quoted
username first, then password, login and connection-limit clauses in order. -/
def specCreateUserQuery (user : UserConfig) : String :=
  "CREATE USER " ++ quoteIdentifier user.Username ++ specPasswordClause user
    ++ specLoginClause user ++ specConnLimitClause user

theorem string_append_empty (s : String) : s ++ "" = s := by
  cases s with
  | mk l => show String.mk (l ++ []) = String.mk l
            rw [List.append_nil]

theorem createUserQuery_clauses (user : UserConfig) :
    buildCreateUserQuery user = specCreateUserQuery user := by
  unfold buildCreateUserQuery specCreateUserQuery specPasswordClause
    specLoginClause specConnLimitClause
  by_cases hiam : user.AuthMethod = "iam" <;>
    by_cases hpw : user.Password = "" <;>
      by_cases hlog : user.CanLogin = true <;>
        by_cases hz : user.ConnectionLimit = 0 <;>
          by_cases hneg : user.ConnectionLimit = -1 <;>
            simp [hiam, hpw, hlog, hz, hneg, string_append_empty,
              ← String.append_assoc]

/-- C5: buildCreateUserQuery emits the quoted username, then the password
clause (none for iam, none for an empty password, escaped otherwise), then
LOGIN or NOLOGIN from CanLogin, then a connection-limit clause exactly when
ConnectionLimit is nonzero (-1 literal for unlimited), in that order. -/
theorem createUserQuery_matches_spec (user : UserConfig) :
    buildCreateUserQuery user = specCreateUserQuery user :=
  createUserQuery_clauses user

/-- C10: for every nonzero connection limit other than -1, including
negative values such as -5, buildCreateUserQuery appends a CONNECTION LIMIT
clause carrying that integer verbatim; only zero (no clause) and -1
(literal -1) are distinguished. -/
theorem createUserQuery_negative_connection_limit (user : UserConfig)
    (hz : user.ConnectionLimit ≠ 0) (hneg : user.ConnectionLimit ≠ -1) :
    buildCreateUserQuery user =
      buildCreateUserQuery { user with ConnectionLimit := 0 }
        ++ " CONNECTION LIMIT " ++ toString user.ConnectionLimit := by
  unfold buildCreateUserQuery
  simp [hz, hneg, ← String.append_assoc]

/-- Witness for C10 at connection limit -5. -/
theorem createUserQuery_negative_connection_limit_witness :
    buildCreateUserQuery
        { Username := "carol", Password := "pw", Groups := [],
          Privileges := [], Databases := [], Enabled := true,
          Description := "", AuthMethod := "password", IAMRole := "",
          CanLogin := true, ConnectionLimit := -5 } =
      buildCreateUserQuery
        { Username := "carol", Password := "pw", Groups := [],
          Privileges := [], Databases := [], Enabled := true,
          Description := "", AuthMethod := "password", IAMRole := "",
          CanLogin := true, ConnectionLimit := 0 }
        ++ " CONNECTION LIMIT " ++ toString (-5 : Int) :=
  createUserQuery_negative_connection_limit _ (by decide) (by decide)

/-- One observable database interaction: a read query carrying its SQL text
and its single bound parameter, a mutating statement sent for execution, a
driver-level open of a connection string, or a connection health check. -/
inductive Event where
  | query (sql : String) (param : String)
  | exec (sql : String)
  | openConn (connStr : String)
  | ping
  deriving Repr, DecidableEq

/-- Abstract database driver over a state type: read queries return row
data without changing state, mutating statements either fail with a message
or produce a new state. -/
structure Driver (σ : Type) where
  queryRow : String → String → σ → Except String (Option Unit)
  queryList : String → String → σ → Except String (List String)
  exec : String → σ → Except String σ

/-- Outcome of one Manager operation: the Go return value, the database
state afterwards, and the interactions performed in order. -/
structure Out (σ : Type) (α : Type) where
  res : Except String α
  st : σ
  tr : List Event

instance exceptDecEq {ε α : Type} [DecidableEq ε] [DecidableEq α] :
    DecidableEq (Except ε α) := fun a b =>
  match a, b with
  | .error e1, .error e2 => decidable_of_iff (e1 = e2) (by simp)
  | .ok v1, .ok v2 => decidable_of_iff (v1 = v2) (by simp)
  | .error _, .ok _ => isFalse (by simp)
  | .ok _, .error _ => isFalse (by simp)

instance outDecEq {σ α : Type} [DecidableEq σ] [DecidableEq α] :
    DecidableEq (Out σ α) := fun a b =>
  match a, b with
  | ⟨r1, s1, t1⟩, ⟨r2, s2, t2⟩ =>
    decidable_of_iff (r1 = r2 ∧ s1 = s2 ∧ t1 = t2) (by simp [Out.mk.injEq])

/-- Catalog query text used by UserExists. -/
def userExistsSQL : String := "SELECT 1 FROM pg_user WHERE usename = $1"

/-- Catalog query text used by GroupExists. -/
def groupExistsSQL : String := "SELECT 1 FROM pg_roles WHERE rolname = $1"

/-- Membership catalog query text used by GetUserInfo (Go raw string with
its original leading newline, tabs and trailing spaces). -/
def userGroupsSQL : String :=
  "\n\t\tSELECT r.rolname \n\t\tFROM pg_auth_members m \n\t\tJOIN pg_roles r ON m.roleid = r.oid \n\t\tJOIN pg_roles u ON m.member = u.oid \n\t\tWHERE u.rolname = $1"

/-- UserExists: bound-parameter catalog read; a missing row (ErrNoRows)
yields (false, nil), any other query error is returned. -/
def UserExists {σ : Type} (d : Driver σ) (username : String) (st : σ) : Out σ Bool :=
  match d.queryRow userExistsSQL username st with
  | .ok none => ⟨.ok false, st, [.query userExistsSQL username]⟩
  | .error e => ⟨.error e, st, [.query userExistsSQL username]⟩
  | .ok (some _) => ⟨.ok true, st, [.query userExistsSQL username]⟩

/-- GroupExists: bound-parameter catalog read, same shape as UserExists. -/
def GroupExists {σ : Type} (d : Driver σ) (groupName : String) (st : σ) : Out σ Bool :=
  match d.queryRow groupExistsSQL groupName st with
  | .ok none => ⟨.ok false, st, [.query groupExistsSQL groupName]⟩
  | .error e => ⟨.error e, st, [.query groupExistsSQL groupName]⟩
  | .ok (some _) => ⟨.ok true, st, [.query groupExistsSQL groupName]⟩

/-- Projection of structs.DatabaseUser: the fields GetUserInfo fills. -/
structure DatabaseUser where
  Username : String
  Groups : List String
  Exists : Bool
  deriving Repr, DecidableEq

/-- GetUserInfo: existence check, then, only if the user exists, the
membership catalog join with the name as bound parameter. -/
def GetUserInfo {σ : Type} (d : Driver σ) (username : String) (st : σ) : Out σ DatabaseUser :=
  match UserExists d username st with
  | ⟨.error e, st1, tr1⟩ => ⟨.error e, st1, tr1⟩
  | ⟨.ok false, st1, tr1⟩ => ⟨.ok ⟨username, [], false⟩, st1, tr1⟩
  | ⟨.ok true, st1, tr1⟩ =>
    match d.queryList userGroupsSQL username st1 with
    | .error e =>
      ⟨.error ("failed to get user groups: " ++ e), st1, tr1 ++ [.query userGroupsSQL username]⟩
    | .ok gs => ⟨.ok ⟨username, gs, true⟩, st1, tr1 ++ [.query userGroupsSQL username]⟩

/-- grantRDSIAMRole: GRANT rds_iam TO the quoted username, skipped under
dry-run. -/
def grantRDSIAMRole {σ : Type} (d : Driver σ) (dryRun : Bool) (username : String) (st : σ) :
    Out σ Unit :=
  let query := "GRANT rds_iam TO " ++ quoteIdentifier username
  if dryRun then ⟨.ok (), st, []⟩
  else
    match d.exec query st with
    | .error e => ⟨.error ("failed to grant rds_iam role: " ++ e), st, [.exec query]⟩
    | .ok st1 => ⟨.ok (), st1, [.exec query]⟩

/-- CreateUser: existence-guarded; skips when the user exists, logs instead
of executing under dry-run, and for the iam auth method follows a
successful CREATE with the rds_iam grant, whose failure fails the call. -/
def CreateUser {σ : Type} (d : Driver σ) (dryRun : Bool) (user : UserConfig) (st : σ) :
    Out σ Unit :=
  match UserExists d user.Username st with
  | ⟨.error e, st1, tr1⟩ => ⟨.error ("failed to check if user exists: " ++ e), st1, tr1⟩
  | ⟨.ok true, st1, tr1⟩ => ⟨.ok (), st1, tr1⟩
  | ⟨.ok false, st1, tr1⟩ =>
    let query := buildCreateUserQuery user
    if dryRun then ⟨.ok (), st1, tr1⟩
    else
      match d.exec query st1 with
      | .error e =>
        ⟨.error ("failed to create user " ++ user.Username ++ ": " ++ e), st1,
          tr1 ++ [.exec query]⟩
      | .ok st2 =>
        if user.AuthMethod = "iam" then
          match grantRDSIAMRole d dryRun user.Username st2 with
          | ⟨.error e, st3, tr3⟩ =>
            ⟨.error ("failed to grant rds_iam role to user " ++ user.Username ++ ": " ++ e),
              st3, tr1 ++ [.exec query] ++ tr3⟩
          | ⟨.ok _, st3, tr3⟩ => ⟨.ok (), st3, tr1 ++ [.exec query] ++ tr3⟩
        else ⟨.ok (), st2, tr1 ++ [.exec query]⟩

/-- DropUser: existence-guarded; a missing user is a no-op success. -/
def DropUser {σ : Type} (d : Driver σ) (dryRun : Bool) (username : String) (st : σ) :
    Out σ Unit :=
  match UserExists d username st with
  | ⟨.error e, st1, tr1⟩ => ⟨.error ("failed to check if user exists: " ++ e), st1, tr1⟩
  | ⟨.ok false, st1, tr1⟩ => ⟨.ok (), st1, tr1⟩
  | ⟨.ok true, st1, tr1⟩ =>
    let query := "DROP USER " ++ quoteIdentifier username
    if dryRun then ⟨.ok (), st1, tr1⟩
    else
      match d.exec query st1 with
      | .error e =>
        ⟨.error ("failed to drop user " ++ username ++ ": " ++ e), st1, tr1 ++ [.exec query]⟩
      | .ok st2 => ⟨.ok (), st2, tr1 ++ [.exec query]⟩

/-- CREATE ROLE statement built by CreateGroup. -/
def buildCreateGroupQuery (group : GroupConfig) : String :=
  "CREATE ROLE " ++ quoteIdentifier group.Name
    ++ (if group.Inherit then " INHERIT" else " NOINHERIT")

/-- CreateGroup: existence-guarded CREATE ROLE with INHERIT/NOINHERIT. -/
def CreateGroup {σ : Type} (d : Driver σ) (dryRun : Bool) (group : GroupConfig) (st : σ) :
    Out σ Unit :=
  match GroupExists d group.Name st with
  | ⟨.error e, st1, tr1⟩ => ⟨.error ("failed to check if group exists: " ++ e), st1, tr1⟩
  | ⟨.ok true, st1, tr1⟩ => ⟨.ok (), st1, tr1⟩
  | ⟨.ok false, st1, tr1⟩ =>
    let query := buildCreateGroupQuery group
    if dryRun then ⟨.ok (), st1, tr1⟩
    else
      match d.exec query st1 with
      | .error e =>
        ⟨.error ("failed to create group " ++ group.Name ++ ": " ++ e), st1,
          tr1 ++ [.exec query]⟩
      | .ok st2 => ⟨.ok (), st2, tr1 ++ [.exec query]⟩

/-- GRANT statement for one (privilege, database) pair: the privilege
keyword is interpolated verbatim, database and target are quoted. -/
def buildGrantQuery (priv dbName target : String) : String :=
  "GRANT " ++ priv ++ " ON DATABASE " ++ quoteIdentifier dbName ++ " TO "
    ++ quoteIdentifier target

/-- REVOKE statement for one (privilege, database) pair. -/
def buildRevokeQuery (priv dbName target : String) : String :=
  "REVOKE " ++ priv ++ " ON DATABASE " ++ quoteIdentifier dbName ++ " FROM "
    ++ quoteIdentifier target

/-- Inner loop of GrantPrivileges: one statement per privilege against a
fixed database, first failure returned immediately, dry-run skips. -/
def grantPrivsInner {σ : Type} (d : Driver σ) (dryRun : Bool) (target dbName : String) :
    List String → σ → Out σ Unit
  | [], st => ⟨.ok (), st, []⟩
  | priv :: privs, st =>
    let query := buildGrantQuery priv dbName target
    if dryRun then grantPrivsInner d dryRun target dbName privs st
    else
      match d.exec query st with
      | .error e =>
        ⟨.error ("failed to grant " ++ priv ++ " on " ++ dbName ++ " to " ++ target
          ++ ": " ++ e), st, [.exec query]⟩
      | .ok st1 =>
        let rest := grantPrivsInner d dryRun target dbName privs st1
        ⟨rest.res, rest.st, .exec query :: rest.tr⟩

/-- Outer loop of GrantPrivileges over the database list. -/
def grantPrivsOuter {σ : Type} (d : Driver σ) (dryRun : Bool) (target : String)
    (privileges : List String) : List String → σ → Out σ Unit
  | [], st => ⟨.ok (), st, []⟩
  | dbName :: dbs, st =>
    match grantPrivsInner d dryRun target dbName privileges st with
    | ⟨.error e, st1, tr1⟩ => ⟨.error e, st1, tr1⟩
    | ⟨.ok _, st1, tr1⟩ =>
      let rest := grantPrivsOuter d dryRun target privileges dbs st1
      ⟨rest.res, rest.st, tr1 ++ rest.tr⟩

/-- GrantPrivileges: databases in the outer loop, privileges in the inner
loop, one GRANT per pair. -/
def GrantPrivileges {σ : Type} (d : Driver σ) (dryRun : Bool) (target : String)
    (privileges databases : List String) (st : σ) : Out σ Unit :=
  grantPrivsOuter d dryRun target privileges databases st

/-- Inner loop of RevokePrivileges. -/
def revokePrivsInner {σ : Type} (d : Driver σ) (dryRun : Bool) (target dbName : String) :
    List String → σ → Out σ Unit
  | [], st => ⟨.ok (), st, []⟩
  | priv :: privs, st =>
    let query := buildRevokeQuery priv dbName target
    if dryRun then revokePrivsInner d dryRun target dbName privs st
    else
      match d.exec query st with
      | .error e =>
        ⟨.error ("failed to revoke " ++ priv ++ " on " ++ dbName ++ " from " ++ target
          ++ ": " ++ e), st, [.exec query]⟩
      | .ok st1 =>
        let rest := revokePrivsInner d dryRun target dbName privs st1
        ⟨rest.res, rest.st, .exec query :: rest.tr⟩

/-- Outer loop of RevokePrivileges over the database list. -/
def revokePrivsOuter {σ : Type} (d : Driver σ) (dryRun : Bool) (target : String)
    (privileges : List String) : List String → σ → Out σ Unit
  | [], st => ⟨.ok (), st, []⟩
  | dbName :: dbs, st =>
    match revokePrivsInner d dryRun target dbName privileges st with
    | ⟨.error e, st1, tr1⟩ => ⟨.error e, st1, tr1⟩
    | ⟨.ok _, st1, tr1⟩ =>
      let rest := revokePrivsOuter d dryRun target privileges dbs st1
      ⟨rest.res, rest.st, tr1 ++ rest.tr⟩

/-- RevokePrivileges: same walk as GrantPrivileges with REVOKE statements. -/
def RevokePrivileges {σ : Type} (d : Driver σ) (dryRun : Bool) (target : String)
    (privileges databases : List String) (st : σ) : Out σ Unit :=
  revokePrivsOuter d dryRun target privileges databases st

/-- Membership grant statement built by AddUserToGroup. -/
def buildAddToGroupQuery (username groupName : String) : String :=
  "GRANT " ++ quoteIdentifier groupName ++ " TO " ++ quoteIdentifier username

/-- Membership revoke statement built by RemoveUserFromGroup. -/
def buildRemoveFromGroupQuery (username groupName : String) : String :=
  "REVOKE " ++ quoteIdentifier groupName ++ " FROM " ++ quoteIdentifier username

/-- AddUserToGroup: no existence guard; the membership GRANT is issued
directly and the database rejection, if any, is returned. -/
def AddUserToGroup {σ : Type} (d : Driver σ) (dryRun : Bool) (username groupName : String)
    (st : σ) : Out σ Unit :=
  let query := buildAddToGroupQuery username groupName
  if dryRun then ⟨.ok (), st, []⟩
  else
    match d.exec query st with
    | .error e =>
      ⟨.error ("failed to add user " ++ username ++ " to group " ++ groupName ++ ": " ++ e),
        st, [.exec query]⟩
    | .ok st1 => ⟨.ok (), st1, [.exec query]⟩

/-- RemoveUserFromGroup: no existence guard, mirror of AddUserToGroup. -/
def RemoveUserFromGroup {σ : Type} (d : Driver σ) (dryRun : Bool) (username groupName : String)
    (st : σ) : Out σ Unit :=
  let query := buildRemoveFromGroupQuery username groupName
  if dryRun then ⟨.ok (), st, []⟩
  else
    match d.exec query st with
    | .error e =>
      ⟨.error ("failed to remove user " ++ username ++ " from group " ++ groupName ++ ": " ++ e),
        st, [.exec query]⟩
    | .ok st1 => ⟨.ok (), st1, [.exec query]⟩

/-- Mirrors structs.SyncResult; errors are modelled by their messages. -/
structure SyncResult where
  UsersCreated : List String
  UsersModified : List String
  UsersRemoved : List String
  GroupsCreated : List String
  GroupsModified : List String
  GroupsRemoved : List String
  Errors : List String
  deriving Repr, DecidableEq

/-- The empty SyncResult the sync starts from. -/
def emptySyncResult : SyncResult := ⟨[], [], [], [], [], [], []⟩

/-- Group phase of SyncConfiguration: create each group; on failure record
the error and continue; on success record the creation, then grant the
group's privileges, recording a failure without undoing the record. -/
def syncGroups {σ : Type} (d : Driver σ) (dryRun : Bool) :
    List GroupConfig → SyncResult → σ → SyncResult × σ × List Event
  | [], res, st => (res, st, [])
  | g :: gs, res, st =>
    match CreateGroup d dryRun g st with
    | ⟨.error e, st1, tr1⟩ =>
      let r :=
        syncGroups d dryRun gs
          { res with Errors := res.Errors ++ ["failed to create group " ++ g.Name ++ ": " ++ e] }
          st1
      (r.1, r.2.1, tr1 ++ r.2.2)
    | ⟨.ok _, st1, tr1⟩ =>
      let res1 := { res with GroupsCreated := res.GroupsCreated ++ [g.Name] }
      match GrantPrivileges d dryRun g.Name g.Privileges g.Databases st1 with
      | ⟨.error e, st2, tr2⟩ =>
        let r :=
          syncGroups d dryRun gs
            { res1 with
              Errors := res1.Errors
                ++ ["failed to grant privileges to group " ++ g.Name ++ ": " ++ e] }
            st2
        (r.1, r.2.1, tr1 ++ tr2 ++ r.2.2)
      | ⟨.ok _, st2, tr2⟩ =>
        let r := syncGroups d dryRun gs res1 st2
        (r.1, r.2.1, tr1 ++ tr2 ++ r.2.2)

/-- Membership loop inside the user phase: attempt every declared group
name, recording each failure independently. -/
def syncUserGroups {σ : Type} (d : Driver σ) (dryRun : Bool) (username : String) :
    List String → SyncResult → σ → SyncResult × σ × List Event
  | [], res, st => (res, st, [])
  | gName :: gNames, res, st =>
    match AddUserToGroup d dryRun username gName st with
    | ⟨.error e, st1, tr1⟩ =>
      let r :=
        syncUserGroups d dryRun username gNames
          { res with
            Errors := res.Errors
              ++ ["failed to add user " ++ username ++ " to group " ++ gName ++ ": " ++ e] }
          st1
      (r.1, r.2.1, tr1 ++ r.2.2)
    | ⟨.ok _, st1, tr1⟩ =>
      let r := syncUserGroups d dryRun username gNames res st1
      (r.1, r.2.1, tr1 ++ r.2.2)

/-- User phase of SyncConfiguration: skip disabled users; create each
enabled user, and only on success record it, attempt its memberships and
grant its privileges; on creation failure record the error and move on. -/
def syncUsers {σ : Type} (d : Driver σ) (dryRun : Bool) :
    List UserConfig → SyncResult → σ → SyncResult × σ × List Event
  | [], res, st => (res, st, [])
  | u :: us, res, st =>
    if u.Enabled = false then syncUsers d dryRun us res st
    else
      match CreateUser d dryRun u st with
      | ⟨.error e, st1, tr1⟩ =>
        let r :=
          syncUsers d dryRun us
            { res with
              Errors := res.Errors ++ ["failed to create user " ++ u.Username ++ ": " ++ e] }
            st1
        (r.1, r.2.1, tr1 ++ r.2.2)
      | ⟨.ok _, st1, tr1⟩ =>
        let res1 := { res with UsersCreated := res.UsersCreated ++ [u.Username] }
        let m := syncUserGroups d dryRun u.Username u.Groups res1 st1
        match GrantPrivileges d dryRun u.Username u.Privileges u.Databases m.2.1 with
        | ⟨.error e, st3, tr3⟩ =>
          let r :=
            syncUsers d dryRun us
              { m.1 with
                Errors := m.1.Errors
                  ++ ["failed to grant privileges to user " ++ u.Username ++ ": " ++ e] }
              st3
          (r.1, r.2.1, tr1 ++ m.2.2 ++ tr3 ++ r.2.2)
        | ⟨.ok _, st3, tr3⟩ =>
          let r := syncUsers d dryRun us m.1 st3
          (r.1, r.2.1, tr1 ++ m.2.2 ++ tr3 ++ r.2.2)

/-- SyncConfiguration: group phase then user phase; the Go error return is
always nil, partial failures live in the result's error list. -/
def SyncConfiguration {σ : Type} (d : Driver σ) (dryRun : Bool) (config : Config) (st : σ) :
    (SyncResult × Option String) × σ × List Event :=
  let rg := syncGroups d dryRun config.Groups emptySyncResult st
  let ru := syncUsers d dryRun config.Users rg.1 rg.2.1
  ((ru.1, none), ru.2.1, rg.2.2 ++ ru.2.2)

/-- Mirrors structs.DatabaseConnection. -/
structure DatabaseConnection where
  Host : String
  Port : Int
  Database : String
  Username : String
  Password : String
  SSLMode : String
  IAMAuth : Bool
  AWSRegion : String
  IAMToken : String
  deriving Repr, DecidableEq

/-- Accumulator pass over decimal digit characters; any non-digit fails. -/
def digitsVal : List Char → Nat → Option Nat
  | [], acc => some acc
  | c :: cs, acc => if c.isDigit then digitsVal cs (acc * 10 + (c.toNat - 48)) else none

/-- Model of strconv.Atoi: optional sign followed by at least one decimal
digit; anything else is a parse error. -/
def atoi (s : String) : Option Int :=
  match s.data with
  | [] => none
  | '-' :: ds => if ds = [] then none else (digitsVal ds 0).map (fun n => -(n : Int))
  | '+' :: ds => if ds = [] then none else (digitsVal ds 0).map (fun n => (n : Int))
  | ds => (digitsVal ds 0).map (fun n => (n : Int))

/-- getEnvOrDefault from internal/config; the environment is a total map
from variable names to values, the empty string meaning unset. -/
def getEnvOrDefault (env : String → String) (key defaultValue : String) : String :=
  if env key ≠ "" then env key else defaultValue

/-- GetDatabaseConnection from internal/config: assemble connection
parameters from environment variables, then validate by auth method - for
IAM force SSL and read the optional token, for password authentication
require a non-empty password before anything touches the database. -/
def GetDatabaseConnection (env : String → String) : Except String DatabaseConnection :=
  let conn : DatabaseConnection :=
    { Host := getEnvOrDefault env "POSTGRES_HOST" "localhost"
      Port := 0
      Database := getEnvOrDefault env "POSTGRES_DB" "postgres"
      Username := getEnvOrDefault env "POSTGRES_USER" "postgres"
      Password := env "POSTGRES_PASSWORD"
      SSLMode := getEnvOrDefault env "POSTGRES_SSLMODE" "require"
      IAMAuth := getEnvOrDefault env "POSTGRES_IAM_AUTH" "false" = "true"
      AWSRegion := getEnvOrDefault env "AWS_REGION" "us-east-1"
      IAMToken := "" }
  let portStr := getEnvOrDefault env "POSTGRES_PORT" "5432"
  match atoi portStr with
  | none => .error ("invalid POSTGRES_PORT: " ++ portStr)
  | some port =>
    let conn := { conn with Port := port }
    if conn.IAMAuth then
      if conn.AWSRegion = "" then
        .error "AWS_REGION environment variable is required for IAM authentication"
      else
        let conn := if conn.SSLMode = "disable" then { conn with SSLMode := "require" } else conn
        .ok { conn with IAMToken := env "POSTGRES_IAM_TOKEN" }
    else
      if conn.Password = "" then
        .error "POSTGRES_PASSWORD environment variable is required for password authentication"
      else .ok conn

/-- Driver connection string assembled by NewManager. -/
def buildConnStr (conn : DatabaseConnection) (password : String) : String :=
  "host=" ++ conn.Host ++ " port=" ++ toString conn.Port ++ " user=" ++ conn.Username
    ++ " password=" ++ password ++ " dbname=" ++ conn.Database ++ " sslmode=" ++ conn.SSLMode

/-- NewManager from internal/database: pick the password-equivalent (IAM
token or placeholder in IAM mode, the static password otherwise), open the
driver handle (sql.Open is lazy and performs no network round-trip), then
health-check with a ping unless running in dry-run mode. The ping outcome
is the environment's: none means success. -/
def NewManager (ping : String → Option String) (conn : DatabaseConnection) (dryRun : Bool) :
    Except String (String × Bool) × List Event :=
  let connStr :=
    if conn.IAMAuth then
      buildConnStr conn (if conn.IAMToken = "" then "PLACEHOLDER_IAM_TOKEN" else conn.IAMToken)
    else buildConnStr conn conn.Password
  if dryRun then (.ok (connStr, dryRun), [.openConn connStr])
  else
    match ping connStr with
    | some e => (.error ("failed to ping database: " ++ e), [.openConn connStr, .ping])
    | none => (.ok (connStr, dryRun), [.openConn connStr, .ping])

/-- Connection-establishment prefix of the sync/create-user/drop-user
commands (cmd package): read connection parameters from the environment,
and only when that succeeds initialize the database manager. -/
def runSyncConnect (env : String → String) (ping : String → Option String) (dryRun : Bool) :
    Except String (String × Bool) × List Event :=
  match GetDatabaseConnection env with
  | .error e => (.error ("failed to get database connection: " ++ e), [])
  | .ok conn =>
    match NewManager ping conn dryRun with
    | (.error e, evs) => (.error ("failed to initialize database manager: " ++ e), evs)
    | (.ok m, evs) => (.ok m, evs)

theorem grantPrivsInner_dryRun {σ : Type} (d : Driver σ) (target dbName : String) :
    ∀ (privs : List String) (st : σ),
      grantPrivsInner d true target dbName privs st = ⟨.ok (), st, []⟩ := by
  intro privs
  induction privs with
  | nil => intro st; rfl
  | cons p ps ih => intro st; simp [grantPrivsInner, ih]

theorem grantPrivsOuter_dryRun {σ : Type} (d : Driver σ) (target : String)
    (privileges : List String) :
    ∀ (dbs : List String) (st : σ),
      grantPrivsOuter d true target privileges dbs st = ⟨.ok (), st, []⟩ := by
  intro dbs
  induction dbs with
  | nil => intro st; rfl
  | cons b bs ih => intro st; simp [grantPrivsOuter, grantPrivsInner_dryRun, ih]

theorem revokePrivsInner_dryRun {σ : Type} (d : Driver σ) (target dbName : String) :
    ∀ (privs : List String) (st : σ),
      revokePrivsInner d true target dbName privs st = ⟨.ok (), st, []⟩ := by
  intro privs
  induction privs with
  | nil => intro st; rfl
  | cons p ps ih => intro st; simp [revokePrivsInner, ih]

theorem revokePrivsOuter_dryRun {σ : Type} (d : Driver σ) (target : String)
    (privileges : List String) :
    ∀ (dbs : List String) (st : σ),
      revokePrivsOuter d true target privileges dbs st = ⟨.ok (), st, []⟩ := by
  intro dbs
  induction dbs with
  | nil => intro st; rfl
  | cons b bs ih => intro st; simp [revokePrivsOuter, revokePrivsInner_dryRun, ih]

/-- C3: with the dry-run flag set, every mutating operation executes no
mutating statement (no exec event), still returns success, and leaves the
database state unchanged, while the existence-guard reads of the guarded
operations are still issued for real. -/
theorem dryRun_executes_no_mutating_statement {σ : Type} (d : Driver σ)
    (user : UserConfig) (group : GroupConfig)
    (dropName memberUser memberGroup target : String)
    (privs dbs : List String) (st : σ) (rowU rowD rowG : Option Unit)
    (hU : d.queryRow userExistsSQL user.Username st = .ok rowU)
    (hD : d.queryRow userExistsSQL dropName st = .ok rowD)
    (hG : d.queryRow groupExistsSQL group.Name st = .ok rowG) :
    CreateUser d true user st = ⟨.ok (), st, [.query userExistsSQL user.Username]⟩ ∧
    DropUser d true dropName st = ⟨.ok (), st, [.query userExistsSQL dropName]⟩ ∧
    CreateGroup d true group st = ⟨.ok (), st, [.query groupExistsSQL group.Name]⟩ ∧
    GrantPrivileges d true target privs dbs st = ⟨.ok (), st, []⟩ ∧
    RevokePrivileges d true target privs dbs st = ⟨.ok (), st, []⟩ ∧
    AddUserToGroup d true memberUser memberGroup st = ⟨.ok (), st, []⟩ ∧
    RemoveUserFromGroup d true memberUser memberGroup st = ⟨.ok (), st, []⟩ := by
  refine ⟨?_, ?_, ?_, ?_, ?_, ?_, ?_⟩
  · cases rowU <;> simp [CreateUser, UserExists, hU]
  · cases rowD <;> simp [DropUser, UserExists, hD]
  · cases rowG <;> simp [CreateGroup, GroupExists, hG]
  · exact grantPrivsOuter_dryRun d target privs dbs st
  · exact revokePrivsOuter_dryRun d target privs dbs st
  · simp [AddUserToGroup]
  · simp [RemoveUserFromGroup]

/-- Sample user configuration used by concrete witnesses. -/
def aliceCfg : UserConfig :=
  ⟨"alice", "pw", ["app_group"], ["CONNECT"], ["app"], true, "", "password", "", true, 0⟩

/-- Sample group configuration used by concrete witnesses. -/
def appGroupCfg : GroupConfig := ⟨"app_group", ["CONNECT"], ["app"], "", true⟩

/-- Concrete driver on the trivial state where every read finds a row. -/
def allExistsDriver : Driver Unit :=
  ⟨fun _ _ _ => .ok (some ()), fun _ _ _ => .ok [], fun _ _ => .ok ()⟩

/-- Witness for C3 at a concrete driver, user, group and operands. -/
theorem dryRun_executes_no_mutating_statement_witness :
    CreateUser allExistsDriver true aliceCfg () =
      ⟨.ok (), (), [.query userExistsSQL aliceCfg.Username]⟩ ∧
    DropUser allExistsDriver true "bob" () = ⟨.ok (), (), [.query userExistsSQL "bob"]⟩ ∧
    CreateGroup allExistsDriver true appGroupCfg () =
      ⟨.ok (), (), [.query groupExistsSQL appGroupCfg.Name]⟩ ∧
    GrantPrivileges allExistsDriver true "alice" ["CONNECT"] ["app"] () = ⟨.ok (), (), []⟩ ∧
    RevokePrivileges allExistsDriver true "alice" ["CONNECT"] ["app"] () = ⟨.ok (), (), []⟩ ∧
    AddUserToGroup allExistsDriver true "alice" "app_group" () = ⟨.ok (), (), []⟩ ∧
    RemoveUserFromGroup allExistsDriver true "alice" "app_group" () = ⟨.ok (), (), []⟩ :=
  dryRun_executes_no_mutating_statement allExistsDriver aliceCfg appGroupCfg
    "bob" "alice" "app_group" "alice" ["CONNECT"] ["app"] ()
    (some ()) (some ()) (some ()) rfl rfl rfl

/-- C9: the catalog reads send a fixed SQL text with the queried name as
the bound parameter, for every name including ones containing quote
characters; an absent name yields (false, nil), and GetUserInfo on an
absent user yields an exists-false record with no membership query, while
on a present user it issues the membership query with the name bound. -/
theorem reads_bind_name_parameter {σ : Type} (d : Driver σ) (st : σ)
    (n1 n2 n3 : String) (gs : List String)
    (hA : d.queryRow userExistsSQL n1 st = .ok none)
    (hP : d.queryRow userExistsSQL n2 st = .ok (some ()))
    (hPL : d.queryList userGroupsSQL n2 st = .ok gs)
    (hGA : d.queryRow groupExistsSQL n3 st = .ok none) :
    UserExists d n1 st = ⟨.ok false, st, [.query userExistsSQL n1]⟩ ∧
    GroupExists d n3 st = ⟨.ok false, st, [.query groupExistsSQL n3]⟩ ∧
    GetUserInfo d n1 st = ⟨.ok ⟨n1, [], false⟩, st, [.query userExistsSQL n1]⟩ ∧
    GetUserInfo d n2 st =
      ⟨.ok ⟨n2, gs, true⟩, st, [.query userExistsSQL n2, .query userGroupsSQL n2]⟩ := by
  refine ⟨?_, ?_, ?_, ?_⟩ <;> simp [UserExists, GroupExists, GetUserInfo, hA, hP, hPL, hGA]

/-- Concrete driver whose catalogs contain exactly the name "present". -/
def presentOnlyDriver : Driver Unit :=
  ⟨fun _ n _ => if n = "present" then .ok (some ()) else .ok none,
   fun _ _ _ => .ok ["g1"], fun _ s => .ok s⟩

/-- Witness for C9 with quote-laden absent names and a present user. -/
theorem reads_bind_name_parameter_witness :
    UserExists presentOnlyDriver "weird'na\"me" () =
      ⟨.ok false, (), [.query userExistsSQL "weird'na\"me"]⟩ ∧
    GroupExists presentOnlyDriver "no\"such'group" () =
      ⟨.ok false, (), [.query groupExistsSQL "no\"such'group"]⟩ ∧
    GetUserInfo presentOnlyDriver "weird'na\"me" () =
      ⟨.ok ⟨"weird'na\"me", [], false⟩, (), [.query userExistsSQL "weird'na\"me"]⟩ ∧
    GetUserInfo presentOnlyDriver "present" () =
      ⟨.ok ⟨"present", ["g1"], true⟩, (),
        [.query userExistsSQL "present", .query userGroupsSQL "present"]⟩ :=
  reads_bind_name_parameter presentOnlyDriver () "weird'na\"me" "present"
    "no\"such'group" ["g1"] rfl rfl rfl rfl

/-- Cross-product of the specification: databases outer, privileges inner. -/
def specGrantPairs (privileges databases : List String) : List (String × String) :=
  databases.flatMap (fun dbName => privileges.map (fun priv => (dbName, priv)))

/-- Sequential first-failure run over (database, privilege) pairs as the
specification words the privilege walk: one GRANT per pair in order, the
first failure returned immediately with no later pair attempted, dry-run
skipping every execution. -/
def specGrantSeq {σ : Type} (d : Driver σ) (dryRun : Bool) (target : String) :
    List (String × String) → σ → Out σ Unit
  | [], st => ⟨.ok (), st, []⟩
  | (dbName, priv) :: rest, st =>
    if dryRun then specGrantSeq d dryRun target rest st
    else
      match d.exec (buildGrantQuery priv dbName target) st with
      | .error e =>
        ⟨.error ("failed to grant " ++ priv ++ " on " ++ dbName ++ " to " ++ target
          ++ ": " ++ e), st, [.exec (buildGrantQuery priv dbName target)]⟩
      | .ok st1 =>
        let r := specGrantSeq d dryRun target rest st1
        ⟨r.res, r.st, .exec (buildGrantQuery priv dbName target) :: r.tr⟩

/-- REVOKE mirror of specGrantSeq. -/
def specRevokeSeq {σ : Type} (d : Driver σ) (dryRun : Bool) (target : String) :
    List (String × String) → σ → Out σ Unit
  | [], st => ⟨.ok (), st, []⟩
  | (dbName, priv) :: rest, st =>
    if dryRun then specRevokeSeq d dryRun target rest st
    else
      match d.exec (buildRevokeQuery priv dbName target) st with
      | .error e =>
        ⟨.error ("failed to revoke " ++ priv ++ " on " ++ dbName ++ " from " ++ target
          ++ ": " ++ e), st, [.exec (buildRevokeQuery priv dbName target)]⟩
      | .ok st1 =>
        let r := specRevokeSeq d dryRun target rest st1
        ⟨r.res, r.st, .exec (buildRevokeQuery priv dbName target) :: r.tr⟩

theorem grantPrivsInner_eq_specSeq {σ : Type} (d : Driver σ) (dr : Bool)
    (target dbName : String) :
    ∀ (privs : List String) (st : σ),
      grantPrivsInner d dr target dbName privs st =
        specGrantSeq d dr target (privs.map (fun priv => (dbName, priv))) st := by
  intro privs
  induction privs with
  | nil => intro st; cases dr <;> rfl
  | cons p ps ih =>
    intro st
    cases dr with
    | true => simp [grantPrivsInner, specGrantSeq, ih]
    | false =>
      cases hx : d.exec (buildGrantQuery p dbName target) st with
      | error e => simp [grantPrivsInner, specGrantSeq, hx]
      | ok st1 => simp [grantPrivsInner, specGrantSeq, hx, ih]

theorem revokePrivsInner_eq_specSeq {σ : Type} (d : Driver σ) (dr : Bool)
    (target dbName : String) :
    ∀ (privs : List String) (st : σ),
      revokePrivsInner d dr target dbName privs st =
        specRevokeSeq d dr target (privs.map (fun priv => (dbName, priv))) st := by
  intro privs
  induction privs with
  | nil => intro st; cases dr <;> rfl
  | cons p ps ih =>
    intro st
    cases dr with
    | true => simp [revokePrivsInner, specRevokeSeq, ih]
    | false =>
      cases hx : d.exec (buildRevokeQuery p dbName target) st with
      | error e => simp [revokePrivsInner, specRevokeSeq, hx]
      | ok st1 => simp [revokePrivsInner, specRevokeSeq, hx, ih]

theorem specGrantSeq_append {σ : Type} (d : Driver σ) (dr : Bool) (target : String) :
    ∀ (l1 l2 : List (String × String)) (st : σ),
      specGrantSeq d dr target (l1 ++ l2) st =
        (match specGrantSeq d dr target l1 st with
         | ⟨.error e, st1, tr1⟩ => ⟨.error e, st1, tr1⟩
         | ⟨.ok _, st1, tr1⟩ =>
           let r := specGrantSeq d dr target l2 st1
           ⟨r.res, r.st, tr1 ++ r.tr⟩) := by
  intro l1
  induction l1 with
  | nil => intro l2 st; simp [specGrantSeq]
  | cons p l1' ih =>
    intro l2 st
    obtain ⟨dbName, priv⟩ := p
    cases dr with
    | true => simpa [specGrantSeq] using ih l2 st
    | false =>
      cases hx : d.exec (buildGrantQuery priv dbName target) st with
      | error e => simp [specGrantSeq, hx]
      | ok st1 =>
        rcases hr1 : specGrantSeq d false target l1' st1 with ⟨res1, stA, trA⟩
        cases res1 <;> simp [specGrantSeq, hx, ih, hr1]

theorem specRevokeSeq_append {σ : Type} (d : Driver σ) (dr : Bool) (target : String) :
    ∀ (l1 l2 : List (String × String)) (st : σ),
      specRevokeSeq d dr target (l1 ++ l2) st =
        (match specRevokeSeq d dr target l1 st with
         | ⟨.error e, st1, tr1⟩ => ⟨.error e, st1, tr1⟩
         | ⟨.ok _, st1, tr1⟩ =>
           let r := specRevokeSeq d dr target l2 st1
           ⟨r.res, r.st, tr1 ++ r.tr⟩) := by
  intro l1
  induction l1 with
  | nil => intro l2 st; simp [specRevokeSeq]
  | cons p l1' ih =>
    intro l2 st
    obtain ⟨dbName, priv⟩ := p
    cases dr with
    | true => simpa [specRevokeSeq] using ih l2 st
    | false =>
      cases hx : d.exec (buildRevokeQuery priv dbName target) st with
      | error e => simp [specRevokeSeq, hx]
      | ok st1 =>
        rcases hr1 : specRevokeSeq d false target l1' st1 with ⟨res1, stA, trA⟩
        cases res1 <;> simp [specRevokeSeq, hx, ih, hr1]

theorem grantPrivsOuter_eq_specSeq {σ : Type} (d : Driver σ) (dr : Bool)
    (target : String) (privileges : List String) :
    ∀ (dbs : List String) (st : σ),
      grantPrivsOuter d dr target privileges dbs st =
        specGrantSeq d dr target (specGrantPairs privileges dbs) st := by
  intro dbs
  induction dbs with
  | nil => intro st; cases dr <;> rfl
  | cons b bs ih =>
    intro st
    have hb : specGrantPairs privileges (b :: bs) =
        (privileges.map (fun priv => (b, priv))) ++ specGrantPairs privileges bs := by
      simp [specGrantPairs]
    rw [hb, specGrantSeq_append, ← grantPrivsInner_eq_specSeq]
    rcases hin : grantPrivsInner d dr target b privileges st with ⟨res1, st1, tr1⟩
    cases res1 <;> simp [grantPrivsOuter, hin, ih]

theorem revokePrivsOuter_eq_specSeq {σ : Type} (d : Driver σ) (dr : Bool)
    (target : String) (privileges : List String) :
    ∀ (dbs : List String) (st : σ),
      revokePrivsOuter d dr target privileges dbs st =
        specRevokeSeq d dr target (specGrantPairs privileges dbs) st := by
  intro dbs
  induction dbs with
  | nil => intro st; cases dr <;> rfl
  | cons b bs ih =>
    intro st
    have hb : specGrantPairs privileges (b :: bs) =
        (privileges.map (fun priv => (b, priv))) ++ specGrantPairs privileges bs := by
      simp [specGrantPairs]
    rw [hb, specRevokeSeq_append, ← revokePrivsInner_eq_specSeq]
    rcases hin : revokePrivsInner d dr target b privileges st with ⟨res1, st1, tr1⟩
    cases res1 <;> simp [revokePrivsOuter, hin, ih]

theorem specGrantSeq_tr_prefix {σ : Type} (d : Driver σ) (target : String) :
    ∀ (ps : List (String × String)) (st : σ),
      (specGrantSeq d false target ps st).tr <+:
        ps.map (fun p => Event.exec (buildGrantQuery p.2 p.1 target)) := by
  intro ps
  induction ps with
  | nil => intro st; simp [specGrantSeq]
  | cons p ps ih =>
    intro st
    obtain ⟨dbName, priv⟩ := p
    cases hx : d.exec (buildGrantQuery priv dbName target) st with
    | error e => simp [specGrantSeq, hx, List.cons_prefix_cons]
    | ok st1 => simp [specGrantSeq, hx, List.cons_prefix_cons]; exact ih st1

theorem specRevokeSeq_tr_prefix {σ : Type} (d : Driver σ) (target : String) :
    ∀ (ps : List (String × String)) (st : σ),
      (specRevokeSeq d false target ps st).tr <+:
        ps.map (fun p => Event.exec (buildRevokeQuery p.2 p.1 target)) := by
  intro ps
  induction ps with
  | nil => intro st; simp [specRevokeSeq]
  | cons p ps ih =>
    intro st
    obtain ⟨dbName, priv⟩ := p
    cases hx : d.exec (buildRevokeQuery priv dbName target) st with
    | error e => simp [specRevokeSeq, hx, List.cons_prefix_cons]
    | ok st1 => simp [specRevokeSeq, hx, List.cons_prefix_cons]; exact ih st1

/-- C6: GrantPrivileges and RevokePrivileges issue exactly one statement
per (database, privilege) pair of the cross-product, databases in the
outer loop and privileges in the inner loop, stopping at the first failure
with no later pair attempted: both loops equal the sequential first-failure
run over the pair list, and the executed trace is always a prefix of the
full per-pair statement list. -/
theorem privileges_cross_product_first_failure {σ : Type} (d : Driver σ) (dryRun : Bool)
    (target : String) (privileges databases : List String) (st : σ) :
    GrantPrivileges d dryRun target privileges databases st =
      specGrantSeq d dryRun target (specGrantPairs privileges databases) st ∧
    RevokePrivileges d dryRun target privileges databases st =
      specRevokeSeq d dryRun target (specGrantPairs privileges databases) st ∧
    (GrantPrivileges d false target privileges databases st).tr <+:
      (specGrantPairs privileges databases).map
        (fun p => Event.exec (buildGrantQuery p.2 p.1 target)) ∧
    (RevokePrivileges d false target privileges databases st).tr <+:
      (specGrantPairs privileges databases).map
        (fun p => Event.exec (buildRevokeQuery p.2 p.1 target)) := by
  refine ⟨grantPrivsOuter_eq_specSeq d dryRun target privileges databases st,
    revokePrivsOuter_eq_specSeq d dryRun target privileges databases st, ?_, ?_⟩
  · rw [GrantPrivileges, grantPrivsOuter_eq_specSeq]
    exact specGrantSeq_tr_prefix d target _ st
  · rw [RevokePrivileges, revokePrivsOuter_eq_specSeq]
    exact specRevokeSeq_tr_prefix d target _ st

/-- C8: with IAM authentication off and an empty password, connection
parameter assembly fails with the configuration error, and the command
pipeline returns that error with an empty interaction trace: no driver
open and no ping ever happen. -/
theorem missing_password_fails_before_connection (env : String → String)
    (ping : String → Option String) (dryRun : Bool) (p : Int)
    (hIam : getEnvOrDefault env "POSTGRES_IAM_AUTH" "false" ≠ "true")
    (hPw : env "POSTGRES_PASSWORD" = "")
    (hPort : atoi (getEnvOrDefault env "POSTGRES_PORT" "5432") = some p) :
    GetDatabaseConnection env =
      .error "POSTGRES_PASSWORD environment variable is required for password authentication" ∧
    runSyncConnect env ping dryRun =
      (.error ("failed to get database connection: "
        ++ "POSTGRES_PASSWORD environment variable is required for password authentication"),
       []) := by
  have h1 : GetDatabaseConnection env =
      .error "POSTGRES_PASSWORD environment variable is required for password authentication" := by
    simp [GetDatabaseConnection, hPort, hIam, hPw]
  exact ⟨h1, by simp [runSyncConnect, h1]⟩

/-- Environment with every variable unset. -/
def emptyEnv : String → String := fun _ => ""

/-- Witness for C8 in the all-unset environment. -/
theorem missing_password_fails_before_connection_witness :
    GetDatabaseConnection emptyEnv =
      .error "POSTGRES_PASSWORD environment variable is required for password authentication" ∧
    runSyncConnect emptyEnv (fun _ => none) false =
      (.error ("failed to get database connection: "
        ++ "POSTGRES_PASSWORD environment variable is required for password authentication"),
       []) :=
  missing_password_fails_before_connection emptyEnv (fun _ => none) false 5432
    (by decide) rfl (by decide)

theorem createUser_ok_establishes_existence {σ : Type} (d : Driver σ) (spec : UserConfig)
    (st st1 : σ) (tr1 : List Event)
    (hContractU : ∀ s s', d.exec (buildCreateUserQuery spec) s = .ok s' →
      d.queryRow userExistsSQL spec.Username s' = .ok (some ()))
    (hContractIam : ∀ s s',
      d.exec ("GRANT rds_iam TO " ++ quoteIdentifier spec.Username) s = .ok s' →
      d.queryRow userExistsSQL spec.Username s = .ok (some ()) →
      d.queryRow userExistsSQL spec.Username s' = .ok (some ()))
    (h1 : CreateUser d false spec st = ⟨.ok (), st1, tr1⟩) :
    d.queryRow userExistsSQL spec.Username st1 = .ok (some ()) := by
  cases hq : d.queryRow userExistsSQL spec.Username st with
  | error e => simp [CreateUser, UserExists, hq] at h1
  | ok row =>
    cases row with
    | some u =>
      cases u
      have hst : (CreateUser d false spec st).st = st1 := congrArg Out.st h1
      have hst2 : (CreateUser d false spec st).st = st := by
        simp [CreateUser, UserExists, hq]
      rw [← hst, hst2]
      exact hq
    | none =>
      cases hx : d.exec (buildCreateUserQuery spec) st with
      | error e => simp [CreateUser, UserExists, hq, hx] at h1
      | ok st2 =>
        by_cases hiam : spec.AuthMethod = "iam"
        · cases hg : d.exec ("GRANT rds_iam TO " ++ quoteIdentifier spec.Username) st2 with
          | error e =>
            simp [CreateUser, UserExists, grantRDSIAMRole, hq, hx, hiam, hg] at h1
          | ok st3 =>
            have hst : (CreateUser d false spec st).st = st1 := congrArg Out.st h1
            have hst2 : (CreateUser d false spec st).st = st3 := by
              simp [CreateUser, UserExists, grantRDSIAMRole, hq, hx, hiam, hg]
            have hs : st1 = st3 := by rw [← hst, hst2]
            subst hs
            exact hContractIam st2 st1 hg (hContractU st st2 hx)
        · have hst : (CreateUser d false spec st).st = st1 := congrArg Out.st h1
          have hst2 : (CreateUser d false spec st).st = st2 := by
            simp [CreateUser, UserExists, hq, hx, hiam]
          have hs : st1 = st2 := by rw [← hst, hst2]
          subst hs
          exact hContractU st st1 hx

theorem createGroup_ok_establishes_existence {σ : Type} (d : Driver σ) (gspec : GroupConfig)
    (st st1 : σ) (tr1 : List Event)
    (hContractG : ∀ s s', d.exec (buildCreateGroupQuery gspec) s = .ok s' →
      d.queryRow groupExistsSQL gspec.Name s' = .ok (some ()))
    (h1 : CreateGroup d false gspec st = ⟨.ok (), st1, tr1⟩) :
    d.queryRow groupExistsSQL gspec.Name st1 = .ok (some ()) := by
  cases hq : d.queryRow groupExistsSQL gspec.Name st with
  | error e => simp [CreateGroup, GroupExists, hq] at h1
  | ok row =>
    cases row with
    | some u =>
      cases u
      have hst : (CreateGroup d false gspec st).st = st1 := congrArg Out.st h1
      have hst2 : (CreateGroup d false gspec st).st = st := by
        simp [CreateGroup, GroupExists, hq]
      rw [← hst, hst2]
      exact hq
    | none =>
      cases hx : d.exec (buildCreateGroupQuery gspec) st with
      | error e => simp [CreateGroup, GroupExists, hq, hx] at h1
      | ok st2 =>
        have hst : (CreateGroup d false gspec st).st = st1 := congrArg Out.st h1
        have hst2 : (CreateGroup d false gspec st).st = st2 := by
          simp [CreateGroup, GroupExists, hq, hx]
        have hs : st1 = st2 := by rw [← hst, hst2]
        subst hs
        exact hContractG st st1 hx

/-- C2: CreateUser and CreateGroup are idempotent. When the existence
check already answers true, the call is a read-only no-op success with no
mutating statement and unchanged state; and after any successful call,
assuming the database honours its CREATE contract (a successful CREATE
makes the existence check answer true, and the rds_iam grant preserves
it), a second call with the same spec is such a no-op, so two calls
perform exactly one creation and end in the state of one call. -/
theorem create_idempotent {σ : Type} (d : Driver σ) (spec : UserConfig)
    (gspec : GroupConfig) (st st1 stg stg1 : σ) (tr1 trg1 : List Event)
    (hContractU : ∀ s s', d.exec (buildCreateUserQuery spec) s = .ok s' →
      d.queryRow userExistsSQL spec.Username s' = .ok (some ()))
    (hContractIam : ∀ s s',
      d.exec ("GRANT rds_iam TO " ++ quoteIdentifier spec.Username) s = .ok s' →
      d.queryRow userExistsSQL spec.Username s = .ok (some ()) →
      d.queryRow userExistsSQL spec.Username s' = .ok (some ()))
    (hContractG : ∀ s s', d.exec (buildCreateGroupQuery gspec) s = .ok s' →
      d.queryRow groupExistsSQL gspec.Name s' = .ok (some ()))
    (h1 : CreateUser d false spec st = ⟨.ok (), st1, tr1⟩)
    (h2 : CreateGroup d false gspec stg = ⟨.ok (), stg1, trg1⟩) :
    CreateUser d false spec st1 = ⟨.ok (), st1, [.query userExistsSQL spec.Username]⟩ ∧
    CreateGroup d false gspec stg1 = ⟨.ok (), stg1, [.query groupExistsSQL gspec.Name]⟩ ∧
    (d.queryRow userExistsSQL spec.Username st = .ok (some ()) →
      st1 = st ∧ tr1 = [.query userExistsSQL spec.Username]) ∧
    (d.queryRow groupExistsSQL gspec.Name stg = .ok (some ()) →
      stg1 = stg ∧ trg1 = [.query groupExistsSQL gspec.Name]) := by
  refine ⟨?_, ?_, ?_, ?_⟩
  · have hex := createUser_ok_establishes_existence d spec st st1 tr1
      hContractU hContractIam h1
    simp [CreateUser, UserExists, hex]
  · have hex := createGroup_ok_establishes_existence d gspec stg stg1 trg1 hContractG h2
    simp [CreateGroup, GroupExists, hex]
  · intro hEx
    have e1 : CreateUser d false spec st =
        ⟨.ok (), st, [.query userExistsSQL spec.Username]⟩ := by
      simp [CreateUser, UserExists, hEx]
    rw [h1] at e1
    exact ⟨(congrArg Out.st e1), (congrArg Out.tr e1)⟩
  · intro hEx
    have e1 : CreateGroup d false gspec stg =
        ⟨.ok (), stg, [.query groupExistsSQL gspec.Name]⟩ := by
      simp [CreateGroup, GroupExists, hEx]
    rw [h2] at e1
    exact ⟨(congrArg Out.st e1), (congrArg Out.tr e1)⟩

/-- Witness for C2 at the concrete all-exists driver, where the guard
already answers true and both calls are no-ops. -/
theorem create_idempotent_witness :
    (CreateUser allExistsDriver false aliceCfg () =
      ⟨.ok (), (), [.query userExistsSQL aliceCfg.Username]⟩) ∧
    (CreateGroup allExistsDriver false appGroupCfg () =
      ⟨.ok (), (), [.query groupExistsSQL appGroupCfg.Name]⟩) ∧
    (() = () ∧
      [Event.query userExistsSQL aliceCfg.Username] =
        [Event.query userExistsSQL aliceCfg.Username]) ∧
    (() = () ∧
      [Event.query groupExistsSQL appGroupCfg.Name] =
        [Event.query groupExistsSQL appGroupCfg.Name]) := by
  have h := create_idempotent allExistsDriver aliceCfg appGroupCfg () () () ()
    [Event.query userExistsSQL aliceCfg.Username]
    [Event.query groupExistsSQL appGroupCfg.Name]
    (fun _ _ _ => rfl) (fun _ _ _ _ => rfl) (fun _ _ _ => rfl) rfl rfl
  exact ⟨h.1, h.2.1, h.2.2.1 rfl, h.2.2.2 rfl⟩

theorem syncUserGroups_append {σ : Type} (d : Driver σ) (dr : Bool) (un : String) :
    ∀ (l1 l2 : List String) (res : SyncResult) (st : σ),
      syncUserGroups d dr un (l1 ++ l2) res st =
        (let a := syncUserGroups d dr un l1 res st
         let b := syncUserGroups d dr un l2 a.1 a.2.1
         (b.1, b.2.1, a.2.2 ++ b.2.2)) := by
  intro l1
  induction l1 with
  | nil => intro l2 res st; simp [syncUserGroups]
  | cons g gs ih =>
    intro l2 res st
    rcases ha : AddUserToGroup d dr un g st with ⟨resA, stA, trA⟩
    cases resA <;> simp [syncUserGroups, ha, ih, List.append_assoc]

theorem syncUserGroups_extend {σ : Type} (d : Driver σ) (dr : Bool) (un : String) :
    ∀ (l : List String) (res : SyncResult) (st : σ),
      ∃ es, (syncUserGroups d dr un l res st).1 = { res with Errors := res.Errors ++ es } := by
  intro l
  induction l with
  | nil => intro res st; exact ⟨[], by simp [syncUserGroups]⟩
  | cons g gs ih =>
    intro res st
    rcases ha : AddUserToGroup d dr un g st with ⟨resA, stA, trA⟩
    cases resA with
    | error e =>
      obtain ⟨es, he⟩ := ih
        { res with Errors := res.Errors
            ++ ["failed to add user " ++ un ++ " to group " ++ g ++ ": " ++ e] } stA
      refine ⟨["failed to add user " ++ un ++ " to group " ++ g ++ ": " ++ e] ++ es, ?_⟩
      simp [syncUserGroups, ha, he, List.append_assoc]
    | ok u =>
      obtain ⟨es, he⟩ := ih res stA
      exact ⟨es, by simp [syncUserGroups, ha, he]⟩

theorem syncGroups_append {σ : Type} (d : Driver σ) (dr : Bool) :
    ∀ (l1 l2 : List GroupConfig) (res : SyncResult) (st : σ),
      syncGroups d dr (l1 ++ l2) res st =
        (let a := syncGroups d dr l1 res st
         let b := syncGroups d dr l2 a.1 a.2.1
         (b.1, b.2.1, a.2.2 ++ b.2.2)) := by
  intro l1
  induction l1 with
  | nil => intro l2 res st; simp [syncGroups]
  | cons g gs ih =>
    intro l2 res st
    rcases hc : CreateGroup d dr g st with ⟨resC, stC, trC⟩
    cases resC with
    | error e => simp [syncGroups, hc, ih, List.append_assoc]
    | ok u =>
      rcases hg : GrantPrivileges d dr g.Name g.Privileges g.Databases stC with ⟨resG, stG, trG⟩
      cases resG <;> simp [syncGroups, hc, hg, ih, List.append_assoc]

theorem syncGroups_extend {σ : Type} (d : Driver σ) (dr : Bool) :
    ∀ (l : List GroupConfig) (res : SyncResult) (st : σ),
      ∃ es gc, (syncGroups d dr l res st).1 =
        { res with Errors := res.Errors ++ es,
                   GroupsCreated := res.GroupsCreated ++ gc } := by
  intro l
  induction l with
  | nil => intro res st; exact ⟨[], [], by simp [syncGroups]⟩
  | cons g gs ih =>
    intro res st
    rcases hc : CreateGroup d dr g st with ⟨resC, stC, trC⟩
    cases resC with
    | error e =>
      obtain ⟨es, gc, he⟩ := ih
        { res with Errors := res.Errors ++ ["failed to create group " ++ g.Name ++ ": " ++ e] }
        stC
      refine ⟨["failed to create group " ++ g.Name ++ ": " ++ e] ++ es, gc, ?_⟩
      simp [syncGroups, hc, he, List.append_assoc]
    | ok u =>
      rcases hg : GrantPrivileges d dr g.Name g.Privileges g.Databases stC with ⟨resG, stG, trG⟩
      cases resG with
      | error e2 =>
        obtain ⟨es, gc, he⟩ := ih
          { res with
            GroupsCreated := res.GroupsCreated ++ [g.Name],
            Errors := res.Errors
              ++ ["failed to grant privileges to group " ++ g.Name ++ ": " ++ e2] } stG
        refine ⟨["failed to grant privileges to group " ++ g.Name ++ ": " ++ e2] ++ es,
          [g.Name] ++ gc, ?_⟩
        simp [syncGroups, hc, hg, he, List.append_assoc]
      | ok u2 =>
        obtain ⟨es, gc, he⟩ := ih
          { res with GroupsCreated := res.GroupsCreated ++ [g.Name] } stG
        refine ⟨es, [g.Name] ++ gc, ?_⟩
        simp [syncGroups, hc, hg, he, List.append_assoc]

theorem syncUsers_append {σ : Type} (d : Driver σ) (dr : Bool) :
    ∀ (l1 l2 : List UserConfig) (res : SyncResult) (st : σ),
      syncUsers d dr (l1 ++ l2) res st =
        (let a := syncUsers d dr l1 res st
         let b := syncUsers d dr l2 a.1 a.2.1
         (b.1, b.2.1, a.2.2 ++ b.2.2)) := by
  intro l1
  induction l1 with
  | nil => intro l2 res st; simp [syncUsers]
  | cons u us ih =>
    intro l2 res st
    cases hen : u.Enabled with
    | false => simp [syncUsers, hen, ih]
    | true =>
      rcases hc : CreateUser d dr u st with ⟨resC, stC, trC⟩
      cases resC with
      | error e => simp [syncUsers, hen, hc, ih, List.append_assoc]
      | ok v =>
        rcases hm : syncUserGroups d dr u.Username u.Groups
          { res with UsersCreated := res.UsersCreated ++ [u.Username] } stC
          with ⟨resM, stM, trM⟩
        rcases hg : GrantPrivileges d dr u.Username u.Privileges u.Databases stM
          with ⟨resG, stG, trG⟩
        cases resG <;> simp [syncUsers, hen, hc, hm, hg, ih, List.append_assoc]

theorem syncUsers_extend {σ : Type} (d : Driver σ) (dr : Bool) :
    ∀ (l : List UserConfig) (res : SyncResult) (st : σ),
      ∃ es uc, (syncUsers d dr l res st).1 =
        { res with Errors := res.Errors ++ es,
                   UsersCreated := res.UsersCreated ++ uc } := by
  intro l
  induction l with
  | nil => intro res st; exact ⟨[], [], by simp [syncUsers]⟩
  | cons u us ih =>
    intro res st
    cases hen : u.Enabled with
    | false =>
      obtain ⟨es, uc, he⟩ := ih res st
      exact ⟨es, uc, by simp [syncUsers, hen, he]⟩
    | true =>
      rcases hc : CreateUser d dr u st with ⟨resC, stC, trC⟩
      cases resC with
      | error e =>
        obtain ⟨es, uc, he⟩ := ih
          { res with Errors := res.Errors
              ++ ["failed to create user " ++ u.Username ++ ": " ++ e] } stC
        refine ⟨["failed to create user " ++ u.Username ++ ": " ++ e] ++ es, uc, ?_⟩
        simp [syncUsers, hen, hc, he, List.append_assoc]
      | ok v =>
        obtain ⟨esm, hm2⟩ := syncUserGroups_extend d dr u.Username u.Groups
          { res with UsersCreated := res.UsersCreated ++ [u.Username] } stC
        rcases hm : syncUserGroups d dr u.Username u.Groups
          { res with UsersCreated := res.UsersCreated ++ [u.Username] } stC
          with ⟨resM, stM, trM⟩
        rw [hm] at hm2
        rcases hg : GrantPrivileges d dr u.Username u.Privileges u.Databases stM
          with ⟨resG, stG, trG⟩
        have hm3 : resM =
            { res with UsersCreated := res.UsersCreated ++ [u.Username],
                       Errors := res.Errors ++ esm } := by
          simpa using hm2
        subst hm3
        cases resG with
        | error e2 =>
          obtain ⟨es, uc, he⟩ := ih
            { res with UsersCreated := res.UsersCreated ++ [u.Username],
                       Errors := (res.Errors ++ esm)
                ++ ["failed to grant privileges to user " ++ u.Username ++ ": " ++ e2] } stG
          refine ⟨esm ++ (["failed to grant privileges to user " ++ u.Username ++ ": " ++ e2]
            ++ es), [u.Username] ++ uc, ?_⟩
          simp only [syncUsers, hen, hc, hm, hg]
          simp [List.append_assoc] at he
          simp [he, List.append_assoc]
        | ok v2 =>
          obtain ⟨es, uc, he⟩ := ih
            { res with UsersCreated := res.UsersCreated ++ [u.Username],
                       Errors := res.Errors ++ esm } stG
          refine ⟨esm ++ es, [u.Username] ++ uc, ?_⟩
          simp only [syncUsers, hen, hc, hm, hg]
          simp [he, List.append_assoc]

theorem createGroup_error_trace {σ : Type} (d : Driver σ) (dr : Bool) (g : GroupConfig)
    (st stF : σ) (e : String) (trF : List Event)
    (h : CreateGroup d dr g st = ⟨.error e, stF, trF⟩) :
    trF = [.query groupExistsSQL g.Name] ∨
    trF = [.query groupExistsSQL g.Name, .exec (buildCreateGroupQuery g)] := by
  cases hq : d.queryRow groupExistsSQL g.Name st with
  | error e0 =>
    left
    have h2 := congrArg Out.tr h
    simp [CreateGroup, GroupExists, hq] at h2
    exact h2.symm
  | ok row =>
    cases row with
    | some u => cases u; exfalso; simp [CreateGroup, GroupExists, hq] at h
    | none =>
      cases dr with
      | true => exfalso; simp [CreateGroup, GroupExists, hq] at h
      | false =>
        cases hx : d.exec (buildCreateGroupQuery g) st with
        | error e1 =>
          right
          have h2 := congrArg Out.tr h
          simp [CreateGroup, GroupExists, hq, hx] at h2
          exact h2.symm
        | ok st2 => exfalso; simp [CreateGroup, GroupExists, hq, hx] at h

theorem createUser_error_trace {σ : Type} (d : Driver σ) (dr : Bool) (u : UserConfig)
    (st stF : σ) (e : String) (trF : List Event)
    (h : CreateUser d dr u st = ⟨.error e, stF, trF⟩) :
    trF = [.query userExistsSQL u.Username] ∨
    trF = [.query userExistsSQL u.Username, .exec (buildCreateUserQuery u)] ∨
    trF = [.query userExistsSQL u.Username, .exec (buildCreateUserQuery u),
           .exec ("GRANT rds_iam TO " ++ quoteIdentifier u.Username)] := by
  cases hq : d.queryRow userExistsSQL u.Username st with
  | error e0 =>
    left
    have h2 := congrArg Out.tr h
    simp [CreateUser, UserExists, hq] at h2
    exact h2.symm
  | ok row =>
    cases row with
    | some v => cases v; exfalso; simp [CreateUser, UserExists, hq] at h
    | none =>
      cases dr with
      | true => exfalso; simp [CreateUser, UserExists, hq] at h
      | false =>
        cases hx : d.exec (buildCreateUserQuery u) st with
        | error e1 =>
          right; left
          have h2 := congrArg Out.tr h
          simp [CreateUser, UserExists, hq, hx] at h2
          exact h2.symm
        | ok st2 =>
          by_cases hiam : u.AuthMethod = "iam"
          · cases hg : d.exec ("GRANT rds_iam TO " ++ quoteIdentifier u.Username) st2 with
            | error e2 =>
              right; right
              have h2 := congrArg Out.tr h
              simp [CreateUser, UserExists, grantRDSIAMRole, hq, hx, hiam, hg] at h2
              exact h2.symm
            | ok st3 =>
              exfalso
              simp [CreateUser, UserExists, grantRDSIAMRole, hq, hx, hiam, hg] at h
          · exfalso; simp [CreateUser, UserExists, hq, hx, hiam] at h

/-- C1: SyncConfiguration always completes the walk with a nil error
value; a group whose creation fails contributes exactly one tagged error
and only its failed creation trace (no privilege-grant attempt), and the
walk continues, still creating a later group; a user whose creation fails
contributes one tagged error and no membership or privilege statements,
and a later enabled user is still created. -/
theorem sync_never_aborts_and_isolates_failures {σ : Type} (d : Driver σ) (dryRun : Bool)
    (cfg : Config) (st : σ)
    (gpre : List GroupConfig) (gk g2 : GroupConfig) (gpost2 : List GroupConfig)
    (resP : SyncResult) (stP : σ) (trP : List Event)
    (eG : String) (stF : σ) (trF : List Event) (st2 : σ) (tr2 : List Event)
    (upre : List UserConfig) (uk u2 : UserConfig) (upost2 : List UserConfig)
    (resG : SyncResult) (stG : σ) (trG : List Event)
    (resUp : SyncResult) (stUp : σ) (trUp : List Event)
    (eU : String) (stFU : σ) (trFU : List Event) (st3 : σ) (tr3 : List Event)
    (hgs : cfg.Groups = gpre ++ gk :: g2 :: gpost2)
    (hpre : syncGroups d dryRun gpre emptySyncResult st = (resP, stP, trP))
    (hgfail : CreateGroup d dryRun gk stP = ⟨.error eG, stF, trF⟩)
    (hg2 : CreateGroup d dryRun g2 stF = ⟨.ok (), st2, tr2⟩)
    (hus : cfg.Users = upre ++ uk :: u2 :: upost2)
    (hG : syncGroups d dryRun cfg.Groups emptySyncResult st = (resG, stG, trG))
    (hupre : syncUsers d dryRun upre resG stG = (resUp, stUp, trUp))
    (huen : uk.Enabled = true)
    (hufail : CreateUser d dryRun uk stUp = ⟨.error eU, stFU, trFU⟩)
    (hu2en : u2.Enabled = true)
    (hu2 : CreateUser d dryRun u2 stFU = ⟨.ok (), st3, tr3⟩) :
    (∀ (cfgAny : Config) (stAny : σ),
      (SyncConfiguration d dryRun cfgAny stAny).1.2 = none) ∧
    ("failed to create group " ++ gk.Name ++ ": " ++ eG)
      ∈ (SyncConfiguration d dryRun cfg st).1.1.Errors ∧
    g2.Name ∈ (SyncConfiguration d dryRun cfg st).1.1.GroupsCreated ∧
    ("failed to create user " ++ uk.Username ++ ": " ++ eU)
      ∈ (SyncConfiguration d dryRun cfg st).1.1.Errors ∧
    u2.Username ∈ (SyncConfiguration d dryRun cfg st).1.1.UsersCreated ∧
    syncGroups d dryRun (gk :: g2 :: gpost2) resP stP =
      (let r := syncGroups d dryRun (g2 :: gpost2)
        { resP with Errors := resP.Errors
            ++ ["failed to create group " ++ gk.Name ++ ": " ++ eG] } stF
       (r.1, r.2.1, trF ++ r.2.2)) ∧
    (trF = [.query groupExistsSQL gk.Name] ∨
     trF = [.query groupExistsSQL gk.Name, .exec (buildCreateGroupQuery gk)]) ∧
    syncUsers d dryRun (uk :: u2 :: upost2) resUp stUp =
      (let r := syncUsers d dryRun (u2 :: upost2)
        { resUp with Errors := resUp.Errors
            ++ ["failed to create user " ++ uk.Username ++ ": " ++ eU] } stFU
       (r.1, r.2.1, trFU ++ r.2.2)) ∧
    (trFU = [.query userExistsSQL uk.Username] ∨
     trFU = [.query userExistsSQL uk.Username, .exec (buildCreateUserQuery uk)] ∨
     trFU = [.query userExistsSQL uk.Username, .exec (buildCreateUserQuery uk),
             .exec ("GRANT rds_iam TO " ++ quoteIdentifier uk.Username)]) := by
  have hResG : (syncGroups d dryRun (gk :: g2 :: gpost2) resP stP).1 = resG := by
    have h := hG
    rw [hgs, syncGroups_append] at h
    simp only [hpre] at h
    simpa using congrArg (fun t => t.1) h
  have hfullRes :
      (SyncConfiguration d dryRun cfg st).1.1 = (syncUsers d dryRun cfg.Users resG stG).1 := by
    simp [SyncConfiguration, hG]
  obtain ⟨esT, ucT, hTop⟩ := syncUsers_extend d dryRun cfg.Users resG stG
  have hUphase : (syncUsers d dryRun cfg.Users resG stG).1 =
      (syncUsers d dryRun (uk :: u2 :: upost2) resUp stUp).1 := by
    have h := syncUsers_append d dryRun upre (uk :: u2 :: upost2) resG stG
    rw [← hus] at h
    rw [h]
    simp [hupre]
  rcases hgp : GrantPrivileges d dryRun g2.Name g2.Privileges g2.Databases st2
    with ⟨resgp, stgp, trgp⟩
  have hGroupMems :
      ("failed to create group " ++ gk.Name ++ ": " ++ eG) ∈ resG.Errors ∧
      g2.Name ∈ resG.GroupsCreated := by
    rw [← hResG]
    cases resgp with
    | error e2 =>
      obtain ⟨es, gc, hext⟩ := syncGroups_extend d dryRun gpost2
        { resP with
          GroupsCreated := resP.GroupsCreated ++ [g2.Name],
          Errors := ((resP.Errors
            ++ ["failed to create group " ++ gk.Name ++ ": " ++ eG])
            ++ ["failed to grant privileges to group " ++ g2.Name ++ ": " ++ e2]) } stgp
      simp [List.append_assoc] at hext
      constructor <;>
        simp [syncGroups, hgfail, hg2, hgp, hext, List.mem_append]
    | ok v =>
      obtain ⟨es, gc, hext⟩ := syncGroups_extend d dryRun gpost2
        { resP with
          GroupsCreated := resP.GroupsCreated ++ [g2.Name],
          Errors := (resP.Errors
            ++ ["failed to create group " ++ gk.Name ++ ": " ++ eG]) } stgp
      simp [List.append_assoc] at hext
      constructor <;>
        simp [syncGroups, hgfail, hg2, hgp, hext, List.mem_append]
  have hUserMems :
      ("failed to create user " ++ uk.Username ++ ": " ++ eU)
        ∈ (syncUsers d dryRun (uk :: u2 :: upost2) resUp stUp).1.Errors ∧
      u2.Username ∈ (syncUsers d dryRun (uk :: u2 :: upost2) resUp stUp).1.UsersCreated := by
    obtain ⟨esm, hm2⟩ := syncUserGroups_extend d dryRun u2.Username u2.Groups
      { resUp with
        UsersCreated := resUp.UsersCreated ++ [u2.Username],
        Errors := resUp.Errors ++ ["failed to create user " ++ uk.Username ++ ": " ++ eU] } st3
    rcases hm : syncUserGroups d dryRun u2.Username u2.Groups
      { resUp with
        UsersCreated := resUp.UsersCreated ++ [u2.Username],
        Errors := resUp.Errors ++ ["failed to create user " ++ uk.Username ++ ": " ++ eU] } st3
      with ⟨resM, stM, trM⟩
    rw [hm] at hm2
    have hm3 : resM = _ := hm2
    subst hm3
    rcases hgp2 : GrantPrivileges d dryRun u2.Username u2.Privileges u2.Databases stM
      with ⟨resgp2, stgp2, trgp2⟩
    cases resgp2 with
    | error e2 =>
      obtain ⟨es, uc, hext⟩ := syncUsers_extend d dryRun upost2
        { resUp with
          UsersCreated := resUp.UsersCreated ++ [u2.Username],
          Errors := (((resUp.Errors
            ++ ["failed to create user " ++ uk.Username ++ ": " ++ eU]) ++ esm)
            ++ ["failed to grant privileges to user " ++ u2.Username ++ ": " ++ e2]) } stgp2
      simp [List.append_assoc] at hext
      constructor <;>
        simp [syncUsers, huen, hufail, hu2en, hu2, hm, hgp2, hext, List.mem_append]
    | ok v =>
      obtain ⟨es, uc, hext⟩ := syncUsers_extend d dryRun upost2
        { resUp with
          UsersCreated := resUp.UsersCreated ++ [u2.Username],
          Errors := ((resUp.Errors
            ++ ["failed to create user " ++ uk.Username ++ ": " ++ eU]) ++ esm) } stgp2
      simp [List.append_assoc] at hext
      constructor <;>
        simp [syncUsers, huen, hufail, hu2en, hu2, hm, hgp2, hext, List.mem_append]
  refine ⟨fun cfgAny stAny => by simp [SyncConfiguration], ?_, ?_, ?_, ?_, ?_,
    createGroup_error_trace d dryRun gk stP stF eG trF hgfail, ?_,
    createUser_error_trace d dryRun uk stUp stFU eU trFU hufail⟩
  · rw [hfullRes, hTop]
    exact List.mem_append_left _ hGroupMems.1
  · rw [hfullRes, hTop]
    exact hGroupMems.2
  · rw [hfullRes, hUphase]
    exact hUserMems.1
  · rw [hfullRes, hUphase]
    exact hUserMems.2
  · simp [syncGroups, hgfail]
  · simp [syncUsers, huen, hufail]

/-- Group whose CREATE ROLE statement the demo driver rejects. -/
def gBadCfg : GroupConfig := ⟨"bad_group", [], [], "", true⟩

/-- Group the demo driver accepts. -/
def gGoodCfg : GroupConfig := ⟨"good_group", [], [], "", true⟩

/-- User whose CREATE USER statement the demo driver rejects. -/
def uBadCfg : UserConfig := ⟨"badu", "pw", [], [], [], true, "", "password", "", true, 0⟩

/-- User the demo driver accepts. -/
def uGoodCfg : UserConfig := ⟨"goodu", "pw", [], [], [], true, "", "password", "", true, 0⟩

/-- Driver rejecting exactly the bad group's and bad user's creation. -/
def failSomeDriver : Driver Unit :=
  ⟨fun _ _ _ => .ok none, fun _ _ _ => .ok [],
   fun q _ =>
     if q = buildCreateGroupQuery gBadCfg then .error "boom"
     else if q = buildCreateUserQuery uBadCfg then .error "bang"
     else .ok ()⟩

/-- Two-group, two-user demo configuration with one failure in each phase. -/
def syncDemoCfg : Config := ⟨[uBadCfg, uGoodCfg], [gBadCfg, gGoodCfg]⟩

/-- Witness for C1: on the demo configuration the sync returns a nil error,
records both tagged failures, and still creates the later group and user. -/
theorem sync_never_aborts_witness :
    (SyncConfiguration failSomeDriver false syncDemoCfg ()).1.2 = none ∧
    ("failed to create group bad_group: failed to create group bad_group: boom")
      ∈ (SyncConfiguration failSomeDriver false syncDemoCfg ()).1.1.Errors ∧
    "good_group" ∈ (SyncConfiguration failSomeDriver false syncDemoCfg ()).1.1.GroupsCreated ∧
    ("failed to create user badu: failed to create user badu: bang")
      ∈ (SyncConfiguration failSomeDriver false syncDemoCfg ()).1.1.Errors ∧
    "goodu" ∈ (SyncConfiguration failSomeDriver false syncDemoCfg ()).1.1.UsersCreated := by
  have h := sync_never_aborts_and_isolates_failures failSomeDriver false syncDemoCfg ()
    [] gBadCfg gGoodCfg [] emptySyncResult () []
    "failed to create group bad_group: boom" ()
    [Event.query groupExistsSQL "bad_group", Event.exec (buildCreateGroupQuery gBadCfg)]
    ()
    [Event.query groupExistsSQL "good_group", Event.exec (buildCreateGroupQuery gGoodCfg)]
    [] uBadCfg uGoodCfg []
    ⟨[], [], [], ["good_group"], [], [],
      ["failed to create group bad_group: failed to create group bad_group: boom"]⟩ ()
    [Event.query groupExistsSQL "bad_group", Event.exec (buildCreateGroupQuery gBadCfg),
     Event.query groupExistsSQL "good_group", Event.exec (buildCreateGroupQuery gGoodCfg)]
    ⟨[], [], [], ["good_group"], [], [],
      ["failed to create group bad_group: failed to create group bad_group: boom"]⟩ () []
    "failed to create user badu: bang" ()
    [Event.query userExistsSQL "badu", Event.exec (buildCreateUserQuery uBadCfg)]
    ()
    [Event.query userExistsSQL "goodu", Event.exec (buildCreateUserQuery uGoodCfg)]
    (by decide) (by decide) (by decide) (by decide) (by decide) (by decide) (by decide)
    (by decide) (by decide) (by decide) (by decide)
  exact ⟨h.1 syncDemoCfg (), h.2.1, h.2.2.1, h.2.2.2.1, h.2.2.2.2.1⟩

/-- C7: AddUserToGroup and RemoveUserFromGroup issue exactly one statement
with no existence-guard read; a database rejection surfaces as the wrapped
error; in the sync walk a failing membership grant is recorded as its own
error, the remaining group names of the same user are still attempted, and
the user still appears in UsersCreated. -/
theorem membership_ops_not_guarded {σ : Type} (d : Driver σ)
    (username groupName : String) (st : σ) (e : String)
    (u : UserConfig) (us : List UserConfig) (res : SyncResult)
    (stS stc : σ) (trc : List Event)
    (gpre : List String) (gBad : String) (grest : List String)
    (resM : SyncResult) (stM : σ) (trM : List Event)
    (e2 : String) (stF : σ) (trF : List Event)
    (hrej : d.exec (buildAddToGroupQuery username groupName) st = .error e)
    (hEn : u.Enabled = true)
    (hCu : CreateUser d false u stS = ⟨.ok (), stc, trc⟩)
    (hSplit : u.Groups = gpre ++ gBad :: grest)
    (hPre : syncUserGroups d false u.Username gpre
      { res with UsersCreated := res.UsersCreated ++ [u.Username] } stc = (resM, stM, trM))
    (hBad : AddUserToGroup d false u.Username gBad stM = ⟨.error e2, stF, trF⟩) :
    (AddUserToGroup d false username groupName st).tr =
      [.exec (buildAddToGroupQuery username groupName)] ∧
    (RemoveUserFromGroup d false username groupName st).tr =
      [.exec (buildRemoveFromGroupQuery username groupName)] ∧
    (AddUserToGroup d false username groupName st).res =
      .error ("failed to add user " ++ username ++ " to group " ++ groupName ++ ": " ++ e) ∧
    syncUserGroups d false u.Username (gBad :: grest) resM stM =
      (let r := syncUserGroups d false u.Username grest
        { resM with Errors := resM.Errors
            ++ ["failed to add user " ++ u.Username ++ " to group " ++ gBad ++ ": " ++ e2] }
        stF
       (r.1, r.2.1, trF ++ r.2.2)) ∧
    ("failed to add user " ++ u.Username ++ " to group " ++ gBad ++ ": " ++ e2)
      ∈ (syncUsers d false (u :: us) res stS).1.Errors ∧
    u.Username ∈ (syncUsers d false (u :: us) res stS).1.UsersCreated := by
  have hkey :
      ("failed to add user " ++ u.Username ++ " to group " ++ gBad ++ ": " ++ e2)
        ∈ (syncUsers d false (u :: us) res stS).1.Errors ∧
      u.Username ∈ (syncUsers d false (u :: us) res stS).1.UsersCreated := by
    obtain ⟨esm0, hm0⟩ := syncUserGroups_extend d false u.Username gpre
      { res with UsersCreated := res.UsersCreated ++ [u.Username] } stc
    rw [hPre] at hm0
    have hm3 : resM = _ := hm0
    subst hm3
    obtain ⟨esM2, hext1⟩ := syncUserGroups_extend d false u.Username grest
      { res with
        UsersCreated := res.UsersCreated ++ [u.Username],
        Errors := (res.Errors ++ esm0)
          ++ ["failed to add user " ++ u.Username ++ " to group " ++ gBad ++ ": " ++ e2] } stF
    rcases hr : syncUserGroups d false u.Username grest
      { res with
        UsersCreated := res.UsersCreated ++ [u.Username],
        Errors := (res.Errors ++ esm0)
          ++ ["failed to add user " ++ u.Username ++ " to group " ++ gBad ++ ": " ++ e2] } stF
      with ⟨resR, stR, trR⟩
    rw [hr] at hext1
    have hr3 : resR = _ := hext1
    subst hr3
    simp only [List.append_assoc] at hr
    rcases hgp : GrantPrivileges d false u.Username u.Privileges u.Databases stR
      with ⟨resgp, stgp, trgp⟩
    cases resgp with
    | error e3 =>
      obtain ⟨es, uc, hext⟩ := syncUsers_extend d false us
        { res with
          UsersCreated := res.UsersCreated ++ [u.Username],
          Errors := ((((res.Errors ++ esm0)
            ++ ["failed to add user " ++ u.Username ++ " to group " ++ gBad ++ ": " ++ e2])
            ++ esM2)
            ++ ["failed to grant privileges to user " ++ u.Username ++ ": " ++ e3]) } stgp
      simp [List.append_assoc] at hext
      constructor <;>
        simp [syncUsers, hEn, hCu, hSplit, syncUserGroups_append, hPre, syncUserGroups,
          hBad, hr, hgp, hext, List.mem_append]
    | ok v =>
      obtain ⟨es, uc, hext⟩ := syncUsers_extend d false us
        { res with
          UsersCreated := res.UsersCreated ++ [u.Username],
          Errors := (((res.Errors ++ esm0)
            ++ ["failed to add user " ++ u.Username ++ " to group " ++ gBad ++ ": " ++ e2])
            ++ esM2) } stgp
      simp [List.append_assoc] at hext
      constructor <;>
        simp [syncUsers, hEn, hCu, hSplit, syncUserGroups_append, hPre, syncUserGroups,
          hBad, hr, hgp, hext, List.mem_append]
  refine ⟨?_, ?_, ?_, by simp [syncUserGroups, hBad], hkey.1, hkey.2⟩
  · cases hx : d.exec (buildAddToGroupQuery username groupName) st with
    | error e0 => simp [AddUserToGroup, hx]
    | ok st1 => simp [AddUserToGroup, hx]
  · cases hx : d.exec (buildRemoveFromGroupQuery username groupName) st with
    | error e0 => simp [RemoveUserFromGroup, hx]
    | ok st1 => simp [RemoveUserFromGroup, hx]
  · simp [AddUserToGroup, hrej]

/-- User declaring membership of a group the demo driver rejects first. -/
def aliceGhostCfg : UserConfig :=
  ⟨"alice", "pw", ["ghost_group", "app_group"], [], [], true, "", "password", "", true, 0⟩

/-- Driver rejecting exactly the membership grant into ghost_group. -/
def ghostDriver : Driver Unit :=
  ⟨fun _ _ _ => .ok none, fun _ _ _ => .ok [],
   fun q _ =>
     if q = buildAddToGroupQuery "alice" "ghost_group" then .error "no such role"
     else .ok ()⟩

/-- Witness for C7: the rejected membership grant is one unguarded
statement, surfaces as a wrapped error, is recorded in the sync result,
and the user is still listed as created. -/
theorem membership_ops_not_guarded_witness :
    (AddUserToGroup ghostDriver false "alice" "ghost_group" ()).tr =
      [.exec (buildAddToGroupQuery "alice" "ghost_group")] ∧
    (RemoveUserFromGroup ghostDriver false "alice" "ghost_group" ()).tr =
      [.exec (buildRemoveFromGroupQuery "alice" "ghost_group")] ∧
    (AddUserToGroup ghostDriver false "alice" "ghost_group" ()).res =
      .error ("failed to add user alice to group ghost_group: no such role") ∧
    ("failed to add user alice to group ghost_group: "
      ++ "failed to add user alice to group ghost_group: no such role")
      ∈ (syncUsers ghostDriver false [aliceGhostCfg] emptySyncResult ()).1.Errors ∧
    "alice" ∈ (syncUsers ghostDriver false [aliceGhostCfg] emptySyncResult ()).1.UsersCreated := by
  have h := membership_ops_not_guarded ghostDriver "alice" "ghost_group" () "no such role"
    aliceGhostCfg [] emptySyncResult () ()
    [Event.query userExistsSQL "alice", Event.exec (buildCreateUserQuery aliceGhostCfg)]
    [] "ghost_group" ["app_group"]
    ⟨["alice"], [], [], [], [], [], []⟩ () []
    "failed to add user alice to group ghost_group: no such role" ()
    [Event.exec (buildAddToGroupQuery "alice" "ghost_group")]
    (by decide) rfl (by decide) rfl (by decide) (by decide)
  exact ⟨h.1, h.2.1, h.2.2.1, h.2.2.2.2.1, h.2.2.2.2.2⟩

/-- The quoted image of v occurs inside the statement text s. -/
def embedsQuoted (v s : String) : Prop := (quoteIdentifier v).data <:+: s.data

/-- The escaped image of v occurs inside the statement text s. -/
def embedsEscaped (v s : String) : Prop := (escapeString v).data <:+: s.data

/-- The routing invariant the specification claims for one interpolated
value: it reaches the statement through quoteIdentifier or escapeString. -/
def routedInterpolation (v s : String) : Prop := embedsQuoted v s ∨ embedsEscaped v s

/-- C4 counterexample: the privilege keyword reaches the GRANT statement
raw - for the quote-carrying privilege value x'y"z neither the quoted nor
the escaped image occurs in the statement GrantPrivileges builds, so not
every user-supplied interpolation is routed through the safety helpers. -/
theorem grant_privilege_not_routed_counterexample :
    ¬ routedInterpolation "x'y\"z" (buildGrantQuery "x'y\"z" "appdb" "alice") := by
  unfold routedInterpolation embedsQuoted embedsEscaped
  decide

/-- C4 amended: every interpolation of a user-supplied value into the
Mutator's statements passes through quoteIdentifier (names) or
escapeString (the password literal, present exactly for a non-iam user
with a non-empty password) - except the privilege keyword of
GRANT/REVOKE privilege statements, which is interpolated verbatim. -/
theorem mutator_interpolations_routed_except_privilege
    (user : UserConfig) (group : GroupConfig)
    (priv dbName target username groupName : String) :
    embedsQuoted user.Username (buildCreateUserQuery user) ∧
    (user.AuthMethod ≠ "iam" → user.Password ≠ "" →
      embedsEscaped user.Password (buildCreateUserQuery user)) ∧
    embedsQuoted group.Name (buildCreateGroupQuery group) ∧
    embedsQuoted dbName (buildGrantQuery priv dbName target) ∧
    embedsQuoted target (buildGrantQuery priv dbName target) ∧
    embedsQuoted dbName (buildRevokeQuery priv dbName target) ∧
    embedsQuoted target (buildRevokeQuery priv dbName target) ∧
    embedsQuoted groupName (buildAddToGroupQuery username groupName) ∧
    embedsQuoted username (buildAddToGroupQuery username groupName) ∧
    embedsQuoted groupName (buildRemoveFromGroupQuery username groupName) ∧
    embedsQuoted username (buildRemoveFromGroupQuery username groupName) ∧
    embedsQuoted username ("DROP USER " ++ quoteIdentifier username) ∧
    embedsQuoted username ("GRANT rds_iam TO " ++ quoteIdentifier username) ∧
    priv.data <:+: (buildGrantQuery priv dbName target).data ∧
    priv.data <:+: (buildRevokeQuery priv dbName target).data := by
  refine ⟨?_, ?_, ?_, ?_, ?_, ?_, ?_, ?_, ?_, ?_, ?_, ?_, ?_, ?_, ?_⟩
  · rw [embedsQuoted, createUserQuery_clauses]
    unfold specCreateUserQuery
    exact ⟨"CREATE USER ".data,
      (specPasswordClause user).data ++ (specLoginClause user).data
        ++ (specConnLimitClause user).data,
      by simp [String.data_append, List.append_assoc]⟩
  · intro hAuth hPw
    rw [embedsEscaped, createUserQuery_clauses]
    unfold specCreateUserQuery
    have hp : specPasswordClause user =
        " WITH PASSWORD '" ++ escapeString user.Password ++ "'" := by
      simp [specPasswordClause, hAuth, hPw]
    rw [hp]
    exact ⟨"CREATE USER ".data ++ (quoteIdentifier user.Username).data
        ++ " WITH PASSWORD '".data,
      "'".data ++ (specLoginClause user).data ++ (specConnLimitClause user).data,
      by simp [String.data_append, List.append_assoc]⟩
  · rw [embedsQuoted, buildCreateGroupQuery]
    exact ⟨"CREATE ROLE ".data,
      (if group.Inherit then " INHERIT" else " NOINHERIT").data,
      by simp [String.data_append, List.append_assoc]⟩
  · rw [embedsQuoted, buildGrantQuery]
    exact ⟨"GRANT ".data ++ priv.data ++ " ON DATABASE ".data,
      " TO ".data ++ (quoteIdentifier target).data,
      by simp [String.data_append, List.append_assoc]⟩
  · rw [embedsQuoted, buildGrantQuery]
    exact ⟨"GRANT ".data ++ priv.data ++ " ON DATABASE ".data
        ++ (quoteIdentifier dbName).data ++ " TO ".data, [],
      by simp [String.data_append, List.append_assoc]⟩
  · rw [embedsQuoted, buildRevokeQuery]
    exact ⟨"REVOKE ".data ++ priv.data ++ " ON DATABASE ".data,
      " FROM ".data ++ (quoteIdentifier target).data,
      by simp [String.data_append, List.append_assoc]⟩
  · rw [embedsQuoted, buildRevokeQuery]
    exact ⟨"REVOKE ".data ++ priv.data ++ " ON DATABASE ".data
        ++ (quoteIdentifier dbName).data ++ " FROM ".data, [],
      by simp [String.data_append, List.append_assoc]⟩
  · rw [embedsQuoted, buildAddToGroupQuery]
    exact ⟨"GRANT ".data, " TO ".data ++ (quoteIdentifier username).data,
      by simp [String.data_append, List.append_assoc]⟩
  · rw [embedsQuoted, buildAddToGroupQuery]
    exact ⟨"GRANT ".data ++ (quoteIdentifier groupName).data ++ " TO ".data, [],
      by simp [String.data_append, List.append_assoc]⟩
  · rw [embedsQuoted, buildRemoveFromGroupQuery]
    exact ⟨"REVOKE ".data, " FROM ".data ++ (quoteIdentifier username).data,
      by simp [String.data_append, List.append_assoc]⟩
  · rw [embedsQuoted, buildRemoveFromGroupQuery]
    exact ⟨"REVOKE ".data ++ (quoteIdentifier groupName).data ++ " FROM ".data, [],
      by simp [String.data_append, List.append_assoc]⟩
  · rw [embedsQuoted]
    exact ⟨"DROP USER ".data, [], by simp [String.data_append, List.append_assoc]⟩
  · rw [embedsQuoted]
    exact ⟨"GRANT rds_iam TO ".data, [], by simp [String.data_append, List.append_assoc]⟩
  · rw [buildGrantQuery]
    exact ⟨"GRANT ".data,
      " ON DATABASE ".data ++ (quoteIdentifier dbName).data ++ " TO ".data
        ++ (quoteIdentifier target).data,
      by simp [String.data_append, List.append_assoc]⟩
  · rw [buildRevokeQuery]
    exact ⟨"REVOKE ".data,
      " ON DATABASE ".data ++ (quoteIdentifier dbName).data ++ " FROM ".data
        ++ (quoteIdentifier target).data,
      by simp [String.data_append, List.append_assoc]⟩

/-- User with quote characters in name and password for the C4 witness. -/
def c4User : UserConfig := ⟨"bob\"o", "p'w", [], [], [], true, "", "password", "", true, 0⟩

/-- IAM-authenticated user with a quote in its name for the C4 witness. -/
def iamC4User : UserConfig := ⟨"iam\"u", "", [], [], [], true, "", "iam", "arn:x", true, 0⟩

/-- Witness for the amended C4 at quote-carrying concrete values,
including the username routing of an IAM user's CREATE USER statement. -/
theorem mutator_interpolations_witness :
    embedsQuoted c4User.Username (buildCreateUserQuery c4User) ∧
    embedsEscaped c4User.Password (buildCreateUserQuery c4User) ∧
    embedsQuoted iamC4User.Username (buildCreateUserQuery iamC4User) ∧
    embedsQuoted "app\"db" (buildGrantQuery "CONNECT" "app\"db" "bob\"o") ∧
    "CONNECT".data <:+: (buildGrantQuery "CONNECT" "app\"db" "bob\"o").data := by
  have h := mutator_interpolations_routed_except_privilege c4User appGroupCfg
    "CONNECT" "app\"db" "bob\"o" "bob\"o" "app_group"
  have h2 := mutator_interpolations_routed_except_privilege iamC4User appGroupCfg
    "CONNECT" "app\"db" "bob\"o" "bob\"o" "app_group"
  exact ⟨h.1, h.2.1 (by decide) (by decide), h2.1, h.2.2.2.1,
    h.2.2.2.2.2.2.2.2.2.2.2.2.2.1⟩

end PUM
